import Mathlib

/-!
Verification development for the `config-codex` identity core.

Shallow embedding of `src/apps/identity/domain/services/auth_service.py`,
`src/apps/identity/domain/models/user.py`,
`src/apps/identity/api/auth_endpoints.py` and
`src/apps/identity/domain/user_events.py`.

Conventions of the embedding:
* timestamps are `Nat` seconds (UTC);
* a user's UUID primary key is modelled as its string form, so Python's
  `str(user.id)` is the identity on `User.id`;
* the external one-way hasher is modelled by a tagging function whose
  verify is equality of hashes of the plaintext;
* SHA-256 hex digests and `datetime.isoformat` renderings are opaque to
  every claim, so they are passed as explicit function arguments
  (`sha256hex`, `iso`) rather than implemented;
* a JWT produced by `jwt.encode` is modelled as its payload together with
  the signing key; `jwt.decode` succeeds exactly when the supplied key
  equals the signing key and the `exp` claim (when present, as PyJWT makes
  it optional) is strictly in the future — PyJWT raises
  `ExpiredSignatureError` when `exp <= now`, the exclusive boundary;
* Django's default `ModelBackend.authenticate` (no `AUTHENTICATION_BACKENDS`
  is configured in `src/core/settings/`) looks the user up by the
  `USERNAME_FIELD` (`email`), checks the password, and additionally
  requires `user_can_authenticate`, i.e. `is_active`;
* the configured `AUTH_PASSWORD_VALIDATORS` (settings/base.py lines 99-117)
  are UserAttributeSimilarity, MinimumLength (default 8), CommonPassword,
  NumericPassword; the similarity judgment and the bundled common-password
  list are external data, passed as arguments (`similar`, `commonPasswords`).
-/

namespace ConfigCodex

/-- Python `str.lower` on the character sequence. -/
def pyLower (s : String) : String := String.mk (s.data.map Char.toLower)

/-- The whitespace characters stripped by Python `str.strip()`. -/
def isPySpace (c : Char) : Bool :=
  c = ' ' || c = '\t' || c = '\n' || c = '\r' || c = '\x0b' || c = '\x0c'

/-- Python `str.strip()`: drop leading and trailing whitespace. -/
def pyStrip (s : String) : String :=
  String.mk (((s.data.dropWhile isPySpace).reverse.dropWhile isPySpace).reverse)

/-- Python `str.isdigit()` (restricted to ASCII digits; empty string is false). -/
def pyIsDigit (s : String) : Bool :=
  !s.data.isEmpty && s.data.all Char.isDigit

/-- A JSON-ish claim value as stored in a JWT payload dict. -/
inductive CVal where
  | s (v : String)
  | b (v : Bool)
  | n (v : Nat)
deriving DecidableEq, Repr

/-- A decoded JWT payload: the dict built in `create_tokens` /
`refresh_access_token`, in insertion order. -/
def Payload : Type := List (String × CVal)

instance : DecidableEq Payload := by
  unfold Payload
  infer_instance

/-- Python `dict.get(k)` on a payload (first binding wins; the dicts built
by the service bind each key once). -/
def getClaim (p : Payload) (k : String) : Option CVal :=
  (p.find? (fun kv => kv.1 = k)).map (fun kv => kv.2)

/-- A signed token as produced by `jwt.encode(payload, key, algorithm="HS256")`:
the payload together with the signing key. A forged or tampered token is any
`Token` whose `key` differs from the verifier's secret. -/
structure Token where
  payload : Payload
  key : String
deriving DecidableEq

/-- Model of `jwt.encode(payload, key, algorithm="HS256")`. -/
def jwtEncode (payload : Payload) (key : String) : Token := ⟨payload, key⟩

/-- Errors raised by `jwt.decode`: `ExpiredSignatureError` is a subclass of
`InvalidTokenError` but is caught first by the service. -/
inductive JwtError where
  | expiredSignature
  | invalidToken (msg : String)
deriving DecidableEq, Repr

/-- Model of `jwt.decode(token, key, algorithms=["HS256"])` evaluated at UTC time
`now`: verify the signature, then reject when the `exp` claim is at or
before `now` (PyJWT treats expiry as an exclusive bound: expired when
`exp <= now`). A payload without `exp` is accepted by PyJWT. -/
def jwtDecode (token : Token) (key : String) (now : Nat) : Except JwtError Payload :=
  if token.key ≠ key then
    .error (.invalidToken "Signature verification failed")
  else
    match getClaim token.payload "exp" with
    | some (.n exp) =>
        if exp ≤ now then .error .expiredSignature else .ok token.payload
    | some _ => .error (.invalidToken "Expiration Time claim (exp) must be an integer.")
    | none => .ok token.payload

/-- The `User` aggregate (src/apps/identity/domain/models/user.py). -/
structure User where
  id : String
  email : String
  username : String
  passwordHash : String
  first_name : String
  last_name : String
  avatar_url : Option String
  is_active : Bool
  is_staff : Bool
  is_superuser : Bool
  email_verified : Bool
  created_at : Nat
  updated_at : Nat
  last_login_ip : Option String
deriving DecidableEq, Repr

/-- The external Password Hasher's `hash`: opaque one-way tag of the plaintext. -/
def hashPassword (plain : String) : String := "pbkdf2_sha256$" ++ plain

/-- Model of `user.check_password(plain)`: delegate to the hasher's verify. -/
def checkPassword (plain : String) (u : User) : Bool :=
  u.passwordHash = hashPassword plain

/-- Errors of the Python layer: `AuthenticationError` and `TokenError` from
auth_service.py, Django's `ValidationError` (carrying one or more messages),
and the unexpected persistence-layer exceptions (`ValueError` from
`create_user_with_profile`, database `IntegrityError` from `save`). -/
inductive AuthErr where
  | authenticationError (msg : String)
  | tokenError (msg : String)
  | validationError (msgs : List String)
  | valueError (msg : String)
  | integrityError (msg : String)
deriving DecidableEq, Repr

/-- The `str(e)` rendering used when `register_user` wraps a persistence
exception. -/
def AuthErr.message : AuthErr → String
  | .authenticationError m => m
  | .tokenError m => m
  | .validationError ms => String.intercalate ", " ms
  | .valueError m => m
  | .integrityError m => m

/-- Django `ModelBackend.authenticate(username=email, password=password)` with
the project's `User` model (`USERNAME_FIELD = "email"`): fetch by exact email,
check the password, and require `user_can_authenticate`, i.e. `is_active`.
Returns `none` otherwise. -/
def djAuthenticate (store : List User) (username password : String) : Option User :=
  match store.find? (fun u => u.email = username) with
  | none => none
  | some u => if checkPassword password u && u.is_active then some u else none

/-- Value of `timedelta(hours=1).total_seconds()` — the access-token lifetime. -/
def access_token_lifetime : Nat := 3600

/-- Value of `timedelta(days=7).total_seconds()` — the refresh-token lifetime. -/
def refresh_token_lifetime : Nat := 604800

/-- Embedding of `AuthService.authenticate_user(email, password, ip_address)` evaluated
against a user store at UTC time `now`. Returns the authenticated user and
the updated store (`update_last_login_ip` saves `last_login_ip` and
`updated_at`). Python's `if ip_address:` is falsy on both `None` and `""`. -/
def authenticate_user (store : List User) (now : Nat)
    (email password : String) (ip_address : Option String) :
    Except AuthErr (User × List User) :=
  if email = "" || password = "" then
    .error (.authenticationError "Email and password are required")
  else
    let email := pyStrip (pyLower email)
    match djAuthenticate store email password with
    | none => .error (.authenticationError "Invalid email or password")
    | some u =>
      if !u.is_active then
        .error (.authenticationError "User account is deactivated")
      else
        match ip_address with
        | some ip =>
            if ip ≠ "" then
              let u' : User := { u with last_login_ip := some ip, updated_at := now }
              .ok (u', store.map (fun v => if v.id = u.id then u' else v))
            else .ok (u, store)
        | none => .ok (u, store)

/-- Embedding of `AuthService._generate_token_id(user_id, timestamp)`:
`sha256(f"{user_id}:{timestamp.isoformat()}:{secret_key}").hexdigest()[:16]`. -/
def generate_token_id (sha256hex : String → String) (iso : Nat → String)
    (secret user_id : String) (timestamp : Nat) : String :=
  (sha256hex (user_id ++ ":" ++ iso timestamp ++ ":" ++ secret)).take 16

/-- The dict returned by `AuthService.create_tokens`. -/
structure TokenSet where
  access_token : Token
  refresh_token : Token
  token_type : String
  expires_in : Nat
deriving DecidableEq

/-- Embedding of `AuthService.create_tokens(user)` at UTC time `now`. -/
def create_tokens (sha256hex : String → String) (iso : Nat → String)
    (secret : String) (u : User) (now : Nat) : TokenSet :=
  let access_payload : Payload :=
    [("user_id", .s u.id),
     ("email", .s u.email),
     ("username", .s u.username),
     ("is_staff", .b u.is_staff),
     ("is_superuser", .b u.is_superuser),
     ("email_verified", .b u.email_verified),
     ("exp", .n (now + access_token_lifetime)),
     ("iat", .n now),
     ("type", .s "access")]
  let refresh_payload : Payload :=
    [("user_id", .s u.id),
     ("email", .s u.email),
     ("exp", .n (now + refresh_token_lifetime)),
     ("iat", .n now),
     ("type", .s "refresh"),
     ("jti", .s (generate_token_id sha256hex iso secret u.id now))]
  { access_token := jwtEncode access_payload secret,
    refresh_token := jwtEncode refresh_payload secret,
    token_type := "Bearer",
    expires_in := access_token_lifetime }

/-- Embedding of `AuthService.validate_access_token(token)` at UTC time `now`. A
`TokenError` raised inside the `try` block is not a `jwt.InvalidTokenError`,
so the type-mismatch error propagates unchanged. -/
def validate_access_token (secret : String) (token : Token) (now : Nat) :
    Except AuthErr Payload :=
  match jwtDecode token secret now with
  | .error .expiredSignature => .error (.tokenError "Token has expired")
  | .error (.invalidToken m) => .error (.tokenError ("Invalid token: " ++ m))
  | .ok payload =>
      if getClaim payload "type" ≠ some (.s "access") then
        .error (.tokenError "Invalid token type")
      else .ok payload

/-- Embedding of `AuthService.validate_refresh_token(token)` at UTC time `now`. -/
def validate_refresh_token (secret : String) (token : Token) (now : Nat) :
    Except AuthErr Payload :=
  match jwtDecode token secret now with
  | .error .expiredSignature => .error (.tokenError "Refresh token has expired")
  | .error (.invalidToken m) => .error (.tokenError ("Invalid refresh token: " ++ m))
  | .ok payload =>
      if getClaim payload "type" ≠ some (.s "refresh") then
        .error (.tokenError "Invalid token type")
      else .ok payload

/-- The dict returned by `AuthService.refresh_access_token`: no
`refresh_token` entry. -/
structure AccessTokenSet where
  access_token : Token
  token_type : String
  expires_in : Nat
deriving DecidableEq

/-- Embedding of `AuthService.refresh_access_token(refresh_token)` at UTC time `now`,
reading (never writing) the user store. `payload["user_id"]` is a `KeyError`
when absent — modelled as a `valueError`-class failure since no claim
depends on its class; `User.objects.get(id=...)` fails with
`User.DoesNotExist`, re-raised as `AuthenticationError("User not found")`.
The fresh access payload is the same dict literal as in `create_tokens`. -/
def refresh_access_token (secret : String) (store : List User)
    (token : Token) (now : Nat) : Except AuthErr AccessTokenSet :=
  match validate_refresh_token secret token now with
  | .error e => .error e
  | .ok payload =>
    match getClaim payload "user_id" with
    | none => .error (.valueError "KeyError: user_id")
    | some (.b _) => .error (.valueError "invalid user_id")
    | some (.n _) => .error (.valueError "invalid user_id")
    | some (.s uid) =>
      match store.find? (fun u => u.id = uid) with
      | none => .error (.authenticationError "User not found")
      | some u =>
        if !u.is_active then
          .error (.authenticationError "User account is deactivated")
        else
          let access_payload : Payload :=
            [("user_id", .s u.id),
             ("email", .s u.email),
             ("username", .s u.username),
             ("is_staff", .b u.is_staff),
             ("is_superuser", .b u.is_superuser),
             ("email_verified", .b u.email_verified),
             ("exp", .n (now + access_token_lifetime)),
             ("iat", .n now),
             ("type", .s "access")]
          .ok { access_token := jwtEncode access_payload secret,
                token_type := "Bearer",
                expires_in := access_token_lifetime }

/-- Django `validate_password(password, user)` under the four validators in
`AUTH_PASSWORD_VALIDATORS`, collecting every violation message.
`UserAttributeSimilarityValidator.validate` returns immediately when
`user` is `None`, so the external similarity judgment `similar` is consulted
only when a user context is supplied; `CommonPasswordValidator` tests
`password.lower().strip()` against its list; `NumericPasswordValidator`
tests `password.isdigit()`. -/
def validate_password_errors (commonPasswords : List String)
    (similar : String → User → Bool) (password : String) (user : Option User) :
    List String :=
  (match user with
   | none => []
   | some u =>
       if similar password u then
         ["The password is too similar to the user attributes."]
       else [])
  ++ (if password.length < 8 then
        ["This password is too short. It must contain at least 8 characters."]
      else [])
  ++ (if commonPasswords.contains (pyStrip (pyLower password)) then
        ["This password is too common."]
      else [])
  ++ (if pyIsDigit password then ["This password is entirely numeric."] else [])

/-- Django `BaseUserManager.normalize_email`: strip, split at the last `@`,
lowercase the domain part; an email without `@` raises `ValueError` inside
and is returned unchanged (not even stripped). -/
def normalize_email (email : String) : String :=
  let s := (pyStrip email).data
  match (s.reverse.splitOn '@').head? with
  | none => email
  | some revDomain =>
      if revDomain.length = s.length then email
      else
        let domain := revDomain.reverse
        let name := s.take (s.length - domain.length - 1)
        String.mk (name ++ '@' :: domain.map Char.toLower)

/-- Embedding of `UserManager.create_user_with_profile` followed by `user.save()` against
the store: builds the user with `username = email` (both the normalized
email), hashes the password, and persists. `save` enforces the storage-level
uniqueness constraints on `id`, `email` and `username` by raising an
`IntegrityError`, and an empty email raises `ValueError` before that. -/
def create_user_with_profile (store : List User) (now : Nat) (newId : String)
    (email password first_name last_name : String) :
    Except AuthErr (User × List User) :=
  if email = "" then .error (.valueError "Users must have an email address")
  else
    let email := normalize_email email
    let u : User :=
      { id := newId, email := email, username := email,
        passwordHash := hashPassword password,
        first_name := first_name, last_name := last_name,
        avatar_url := none, is_active := true, is_staff := false,
        is_superuser := false, email_verified := false,
        created_at := now, updated_at := now, last_login_ip := none }
    if store.any (fun v => v.id = u.id || v.email = u.email || v.username = u.username) then
      .error (.integrityError "duplicate key value violates unique constraint")
    else .ok (u, store ++ [u])

/-- Embedding of `AuthService.register_user(email, password, first_name, last_name)`.
`validate_password(password)` is called without a user context. The broad
`except Exception` around `create_user_with_profile` wraps any persistence
failure as `AuthenticationError(f"Failed to create user: {str(e)}")`. -/
def register_user (commonPasswords : List String)
    (similar : String → User → Bool) (store : List User) (now : Nat)
    (newId : String) (email password first_name last_name : String) :
    Except AuthErr (User × List User) :=
  if email = "" || password = "" then
    .error (.validationError ["Email and password are required"])
  else
    let email := pyStrip (pyLower email)
    if store.any (fun v => v.email = email) then
      .error (.validationError ["User with this email already exists"])
    else
      match validate_password_errors commonPasswords similar password none with
      | [] =>
        match create_user_with_profile store now newId email password first_name last_name with
        | .ok r => .ok r
        | .error e => .error (.authenticationError ("Failed to create user: " ++ e.message))
      | errs => .error (.validationError errs)

/-- An API-boundary response: HTTP status, error code of the JSON body when
the endpoint answered with one, and the (possibly updated) user record. -/
structure EndpointResult where
  status : Nat
  errorCode : Option String
  user : User
deriving DecidableEq, Repr

/-- Endpoint `POST /auth/verify-email` (auth_endpoints.py lines 226-248): a user whose
email is already verified gets `400 already_verified` and is left unchanged;
otherwise `User.verify_email` sets the flag and saves
`["email_verified", "updated_at"]`. -/
def verify_email_endpoint (now : Nat) (u : User) : EndpointResult :=
  if u.email_verified then
    { status := 400, errorCode := some "already_verified", user := u }
  else
    { status := 200, errorCode := none,
      user := { u with email_verified := true, updated_at := now } }

/-- Endpoint `PUT /auth/me` (auth_endpoints.py lines 150-175): overwrite each profile
field that was supplied, then save
`["first_name", "last_name", "avatar_url", "updated_at"]`. -/
def update_profile_endpoint (now : Nat) (u : User)
    (first_name last_name avatar_url : Option String) : EndpointResult :=
  let u :=
    { u with
      first_name := first_name.getD u.first_name,
      last_name := last_name.getD u.last_name,
      avatar_url := match avatar_url with
                    | some a => some a
                    | none => u.avatar_url,
      updated_at := now }
  { status := 200, errorCode := none, user := u }

/-- Endpoint `POST /auth/change-password` (auth_endpoints.py lines 183-218): verify the
current password, run `validate_password(new_password, user)` — this time
with the user context — then `set_password` and save
`["password", "updated_at"]`. -/
def change_password_endpoint (commonPasswords : List String)
    (similar : String → User → Bool) (now : Nat) (u : User)
    (current_password new_password : String) : EndpointResult :=
  if ¬ checkPassword current_password u then
    { status := 400, errorCode := some "invalid_password", user := u }
  else
    match validate_password_errors commonPasswords similar new_password (some u) with
    | [] =>
        { status := 200, errorCode := none,
          user := { u with passwordHash := hashPassword new_password, updated_at := now } }
    | _ => { status := 400, errorCode := some "validation_error", user := u }

/-- The mutating operations the API boundary and service perform on an
existing user record. -/
inductive UserOp where
  | verifyEmail
  | updateProfile (first_name last_name avatar_url : Option String)
  | changePassword (current_password new_password : String)
  | updateLastLoginIp (ip : String)
deriving DecidableEq, Repr

/-- Apply one mutating operation to a user record; `updateLastLoginIp` is the
side effect of a successful `authenticate_user` with an IP
(`User.update_last_login_ip`, user.py lines 125-128). -/
def applyUserOp (commonPasswords : List String)
    (similar : String → User → Bool) (now : Nat) (op : UserOp) (u : User) :
    EndpointResult :=
  match op with
  | .verifyEmail => verify_email_endpoint now u
  | .updateProfile fn ln av => update_profile_endpoint now u fn ln av
  | .changePassword cur new => change_password_endpoint commonPasswords similar now u cur new
  | .updateLastLoginIp ip =>
      { status := 200, errorCode := none,
        user := { u with last_login_ip := some ip, updated_at := now } }

/-- The dataclass default expressions of user_events.py: each of the four
event classes evaluates its own `datetime.now(UTC)` once, at class-definition
time during module load. `clock` is the UTC clock sampled at the successive
evaluation steps of the module body (textual order). -/
structure EventDefaults where
  userRegistered : Nat
  userEmailVerified : Nat
  userLoggedIn : Nat
  userPasswordChanged : Nat
deriving DecidableEq, Repr

/-- Loading `user_events.py`: the four `occurred_at` defaults are four
successive clock samples. -/
def loadUserEvents (clock : Nat → Nat) : EventDefaults :=
  { userRegistered := clock 0,
    userEmailVerified := clock 1,
    userLoggedIn := clock 2,
    userPasswordChanged := clock 3 }

/-- Event `UserRegistered`. -/
structure UserRegistered where
  aggregate_id : String
  email : String
  full_name : String
  occurred_at : Nat
deriving DecidableEq, Repr

/-- Event `UserEmailVerified`. -/
structure UserEmailVerified where
  aggregate_id : String
  email : String
  occurred_at : Nat
deriving DecidableEq, Repr

/-- Event `UserLoggedIn`. -/
structure UserLoggedIn where
  aggregate_id : String
  email : String
  ip_address : Option String
  occurred_at : Nat
deriving DecidableEq, Repr

/-- Event `UserPasswordChanged`. -/
structure UserPasswordChanged where
  aggregate_id : String
  email : String
  occurred_at : Nat
deriving DecidableEq, Repr

/-- Construct `UserRegistered`, defaulting `occurred_at` to the value frozen
at module load. -/
def mkUserRegistered (d : EventDefaults) (aggregate_id email full_name : String)
    (occurred_at : Option Nat) : UserRegistered :=
  { aggregate_id, email, full_name,
    occurred_at := occurred_at.getD d.userRegistered }

/-- Construct `UserEmailVerified` with the defaulting of the dataclass. -/
def mkUserEmailVerified (d : EventDefaults) (aggregate_id email : String)
    (occurred_at : Option Nat) : UserEmailVerified :=
  { aggregate_id, email, occurred_at := occurred_at.getD d.userEmailVerified }

/-- Construct `UserLoggedIn` with the defaulting of the dataclass. -/
def mkUserLoggedIn (d : EventDefaults) (aggregate_id email : String)
    (ip_address : Option String) (occurred_at : Option Nat) : UserLoggedIn :=
  { aggregate_id, email, ip_address, occurred_at := occurred_at.getD d.userLoggedIn }

/-- Construct `UserPasswordChanged` with the defaulting of the dataclass. -/
def mkUserPasswordChanged (d : EventDefaults) (aggregate_id email : String)
    (occurred_at : Option Nat) : UserPasswordChanged :=
  { aggregate_id, email, occurred_at := occurred_at.getD d.userPasswordChanged }

/-- A concrete active user record for closed-form instances. -/
def sampleUser : User :=
  { id := "7f9c2d", email := "a@x.com", username := "a@x.com",
    passwordHash := hashPassword "password123",
    first_name := "Ada", last_name := "L", avatar_url := none,
    is_active := true, is_staff := false, is_superuser := false,
    email_verified := false, created_at := 0, updated_at := 0,
    last_login_ip := none }

/-- A deactivated user whose stored hash matches the password used in the
login scenarios. -/
def deactivatedUser : User :=
  { id := "u-inactive", email := "a@x.com", username := "a@x.com",
    passwordHash := hashPassword "correct-password1",
    first_name := "", last_name := "", avatar_url := none,
    is_active := false, is_staff := false, is_superuser := false,
    email_verified := false, created_at := 0, updated_at := 0,
    last_login_ip := none }

/-- A user record whose email is already verified. -/
def verifiedUser : User := { sampleUser with id := "u-verified", email_verified := true }

/-- The record produced by registering `" A@X.com "` with password
`"password123"` against an empty store at time 3. -/
def registeredSample : User :=
  { id := "id-1", email := "a@x.com", username := "a@x.com",
    passwordHash := hashPassword "password123",
    first_name := "Ada", last_name := "L", avatar_url := none,
    is_active := true, is_staff := false, is_superuser := false,
    email_verified := false, created_at := 3, updated_at := 3,
    last_login_ip := none }

lemma djAuthenticate_is_active {store : List User} {username password : String}
    {u : User} (h : djAuthenticate store username password = some u) :
    u.is_active = true := by
  unfold djAuthenticate at h
  cases hfind : store.find? (fun v => v.email = username) with
  | none => rw [hfind] at h; exact absurd h (by simp)
  | some v =>
    rw [hfind] at h
    dsimp only at h
    by_cases hc : (checkPassword password v && v.is_active) = true
    · rw [if_pos hc] at h
      cases h
      exact (Bool.and_eq_true _ _ |>.mp hc).2
    · rw [if_neg hc] at h
      exact absurd h (by simp)

lemma jwtDecode_fresh (payload : Payload) (secret : String) {now exp : Nat}
    (hexp : getClaim payload "exp" = some (.n exp)) (hlt : now < exp) :
    jwtDecode (jwtEncode payload secret) secret now = .ok payload := by
  unfold jwtDecode jwtEncode
  simp [hexp, Nat.not_le.mpr hlt]

lemma getClaim_access_exp (sha256hex : String → String) (iso : Nat → String)
    (secret : String) (u : User) (now : Nat) :
    getClaim (create_tokens sha256hex iso secret u now).access_token.payload "exp" =
      some (.n (now + access_token_lifetime)) := by
  simp [create_tokens, jwtEncode, getClaim, List.find?]

lemma getClaim_refresh_exp (sha256hex : String → String) (iso : Nat → String)
    (secret : String) (u : User) (now : Nat) :
    getClaim (create_tokens sha256hex iso secret u now).refresh_token.payload "exp" =
      some (.n (now + refresh_token_lifetime)) := by
  simp [create_tokens, jwtEncode, getClaim, List.find?]

/-- C5: `create_tokens` builds the access payload with exactly the fields
user_id, email, username, is_staff, is_superuser, email_verified, exp, iat,
type="access" and `exp = iat + 1 hour`; the refresh payload with exactly
user_id, email, exp, iat, type="refresh", jti and `exp = iat + 7 days`,
where jti is the SHA-256 hex digest of `user_id:iso(iat):secret` truncated
to its first 16 characters; and the response carries
`token_type = "Bearer"` and `expires_in = 3600` seconds. -/
theorem create_tokens_payload_fields (sha256hex : String → String)
    (iso : Nat → String) (secret : String) (u : User) (now : Nat) :
    (create_tokens sha256hex iso secret u now).access_token =
      jwtEncode
        [("user_id", .s u.id), ("email", .s u.email), ("username", .s u.username),
         ("is_staff", .b u.is_staff), ("is_superuser", .b u.is_superuser),
         ("email_verified", .b u.email_verified), ("exp", .n (now + 3600)),
         ("iat", .n now), ("type", .s "access")] secret ∧
    (create_tokens sha256hex iso secret u now).refresh_token =
      jwtEncode
        [("user_id", .s u.id), ("email", .s u.email),
         ("exp", .n (now + 7 * 24 * 3600)), ("iat", .n now),
         ("type", .s "refresh"),
         ("jti", .s ((sha256hex (u.id ++ ":" ++ iso now ++ ":" ++ secret)).take 16))]
        secret ∧
    (create_tokens sha256hex iso secret u now).token_type = "Bearer" ∧
    (create_tokens sha256hex iso secret u now).expires_in = 3600 :=
  ⟨rfl, rfl, rfl, rfl⟩

/-- C2: for every user and issue instant, validating the freshly created
access token at that same instant succeeds and yields claims whose
`user_id` is the string form of the user's id and whose `type` is
"access". -/
theorem validate_access_roundtrip (sha256hex : String → String)
    (iso : Nat → String) (secret : String) (u : User) (now : Nat) :
    ∃ p, validate_access_token secret
        (create_tokens sha256hex iso secret u now).access_token now = .ok p ∧
      getClaim p "user_id" = some (.s u.id) ∧
      getClaim p "type" = some (.s "access") := by
  refine ⟨(create_tokens sha256hex iso secret u now).access_token.payload, ?_, ?_, ?_⟩
  · unfold validate_access_token
    rw [show (create_tokens sha256hex iso secret u now).access_token =
          jwtEncode (create_tokens sha256hex iso secret u now).access_token.payload secret from rfl,
        jwtDecode_fresh _ _ (getClaim_access_exp sha256hex iso secret u now)
          (Nat.lt_add_of_pos_right (by decide))]
    simp [create_tokens, jwtEncode, getClaim, List.find?]
  · simp [create_tokens, jwtEncode, getClaim, List.find?]
  · simp [create_tokens, jwtEncode, getClaim, List.find?]

/-- C1: the claim fails on the code. Because no `AUTHENTICATION_BACKENDS`
setting overrides Django's default `ModelBackend`, `authenticate()` itself
refuses inactive users (`user_can_authenticate`), so `authenticate_user` on
a deactivated user with the correct password raises
`AuthenticationError("Invalid email or password")` — and the dedicated
"User account is deactivated" branch is unreachable: the only errors
`authenticate_user` can produce are the missing-credentials one and
`InvalidCredentials`. -/
theorem authenticate_user_inactive_yields_invalid_credentials :
    (authenticate_user [deactivatedUser] 100 "a@x.com" "correct-password1" none =
      .error (.authenticationError "Invalid email or password")) ∧
    ∀ store now email password ip e,
      authenticate_user store now email password ip = .error e →
        e = .authenticationError "Email and password are required" ∨
        e = .authenticationError "Invalid email or password" := by
  constructor
  · rfl
  · intro store now email password ip e h
    unfold authenticate_user at h
    by_cases h0 : (email = "" || password = "") = true
    · rw [if_pos h0] at h
      cases h
      exact Or.inl rfl
    · rw [if_neg h0] at h
      dsimp only at h
      cases hdj : djAuthenticate store (pyStrip (pyLower email)) password with
      | none =>
        rw [hdj] at h
        cases h
        exact Or.inr rfl
      | some u =>
        rw [hdj] at h
        dsimp only at h
        rw [djAuthenticate_is_active hdj] at h
        rw [if_neg (by decide)] at h
        cases ip with
        | none => exact absurd h (by simp)
        | some s =>
          dsimp only at h
          split at h <;> exact absurd h (by simp)

/-- Witness for C1's theorem: its error classification applied to the
deactivated-user login itself. -/
theorem authenticate_user_inactive_witness :
    AuthErr.authenticationError "Invalid email or password" =
        AuthErr.authenticationError "Email and password are required" ∨
    AuthErr.authenticationError "Invalid email or password" =
        AuthErr.authenticationError "Invalid email or password" :=
  authenticate_user_inactive_yields_invalid_credentials.2 [deactivatedUser] 100
    "a@x.com" "correct-password1" none _
    authenticate_user_inactive_yields_invalid_credentials.1

/-- C3: a well-signed, unexpired token whose `type` claim is not the expected
kind is rejected with the `TokenError("Invalid token type")` raised inside the
`try` block (not a `jwt` error, so it propagates as raised):
`validate_access_token` rejects every such non-access token — in particular
the refresh token minted by `create_tokens` — and `validate_refresh_token`
rejects every such non-refresh token — in particular the fresh access token;
and whenever either validator returns claims, their `type` is the expected
kind. -/
theorem validate_token_type_mismatch (sha256hex : String → String)
    (iso : Nat → String) (secret : String) (tok : Token) (now : Nat) (u : User)
    (hdec : jwtDecode tok secret now = .ok tok.payload) :
    (getClaim tok.payload "type" ≠ some (.s "access") →
      validate_access_token secret tok now =
        .error (.tokenError "Invalid token type")) ∧
    (getClaim tok.payload "type" ≠ some (.s "refresh") →
      validate_refresh_token secret tok now =
        .error (.tokenError "Invalid token type")) ∧
    (validate_access_token secret
        (create_tokens sha256hex iso secret u now).refresh_token now =
      .error (.tokenError "Invalid token type")) ∧
    (validate_refresh_token secret
        (create_tokens sha256hex iso secret u now).access_token now =
      .error (.tokenError "Invalid token type")) ∧
    (∀ t p, validate_access_token secret t now = .ok p →
      getClaim p "type" = some (.s "access")) ∧
    (∀ t p, validate_refresh_token secret t now = .ok p →
      getClaim p "type" = some (.s "refresh")) := by
  refine ⟨?_, ?_, ?_, ?_, ?_, ?_⟩
  · intro hty
    unfold validate_access_token
    rw [hdec]
    simp [hty]
  · intro hty
    unfold validate_refresh_token
    rw [hdec]
    simp [hty]
  · unfold validate_access_token
    rw [show (create_tokens sha256hex iso secret u now).refresh_token =
          jwtEncode (create_tokens sha256hex iso secret u now).refresh_token.payload secret from rfl,
        jwtDecode_fresh _ _ (getClaim_refresh_exp sha256hex iso secret u now)
          (Nat.lt_add_of_pos_right (by decide))]
    simp [create_tokens, jwtEncode, getClaim, List.find?]
  · unfold validate_refresh_token
    rw [show (create_tokens sha256hex iso secret u now).access_token =
          jwtEncode (create_tokens sha256hex iso secret u now).access_token.payload secret from rfl,
        jwtDecode_fresh _ _ (getClaim_access_exp sha256hex iso secret u now)
          (Nat.lt_add_of_pos_right (by decide))]
    simp [create_tokens, jwtEncode, getClaim, List.find?]
  · intro t p h
    unfold validate_access_token at h
    cases hd : jwtDecode t secret now with
    | error e =>
      rw [hd] at h
      cases e <;> exact absurd h (by simp)
    | ok q =>
      rw [hd] at h
      dsimp only at h
      by_cases hty : getClaim q "type" = some (.s "access")
      · rw [if_neg (by simpa using hty)] at h
        cases h
        exact hty
      · rw [if_pos (by simpa using hty)] at h
        exact absurd h (by simp)
  · intro t p h
    unfold validate_refresh_token at h
    cases hd : jwtDecode t secret now with
    | error e =>
      rw [hd] at h
      cases e <;> exact absurd h (by simp)
    | ok q =>
      rw [hd] at h
      dsimp only at h
      by_cases hty : getClaim q "type" = some (.s "refresh")
      · rw [if_neg (by simpa using hty)] at h
        cases h
        exact hty
      · rw [if_pos (by simpa using hty)] at h
        exact absurd h (by simp)

/-- Witness for C3's theorem: the service's own refresh token presented to
`validate_access_token` is rejected as an invalid token type. -/
theorem validate_token_type_mismatch_witness :
    validate_access_token "k"
        (create_tokens (fun _ => "deadbeef") (fun _ => "t0") "k" sampleUser 50).refresh_token 50 =
      .error (.tokenError "Invalid token type") :=
  (validate_token_type_mismatch (fun _ => "deadbeef") (fun _ => "t0") "k"
      (create_tokens (fun _ => "deadbeef") (fun _ => "t0") "k" sampleUser 50).refresh_token
      50 sampleUser rfl).2.2.1

/-- C4: for a token signed with the service secret whose `exp` claim is a
timestamp, both validators fail with the expired error exactly when the
expiry is at or before the validation time (the boundary `exp = now` is
already expired), and succeed at every strictly earlier validation time
when the `type` claim is the expected kind; a token signed with a different
key fails as invalid regardless of expiry. -/
theorem validate_token_expiry_boundary (secret : String) (tok : Token)
    (exp now : Nat) (hexp : getClaim tok.payload "exp" = some (.n exp)) :
    (tok.key = secret → exp ≤ now →
      validate_access_token secret tok now =
        .error (.tokenError "Token has expired") ∧
      validate_refresh_token secret tok now =
        .error (.tokenError "Refresh token has expired")) ∧
    (tok.key = secret → now < exp →
      (getClaim tok.payload "type" = some (.s "access") →
        validate_access_token secret tok now = .ok tok.payload) ∧
      (getClaim tok.payload "type" = some (.s "refresh") →
        validate_refresh_token secret tok now = .ok tok.payload)) ∧
    (tok.key ≠ secret →
      validate_access_token secret tok now =
        .error (.tokenError "Invalid token: Signature verification failed") ∧
      validate_refresh_token secret tok now =
        .error (.tokenError "Invalid refresh token: Signature verification failed")) := by
  refine ⟨?_, ?_, ?_⟩
  · intro hkey hle
    have hd : jwtDecode tok secret now = .error .expiredSignature := by
      unfold jwtDecode
      simp [hkey, hexp, hle]
    constructor
    · unfold validate_access_token
      rw [hd]
    · unfold validate_refresh_token
      rw [hd]
  · intro hkey hlt
    have hd : jwtDecode tok secret now = .ok tok.payload := by
      unfold jwtDecode
      simp [hkey, hexp, Nat.not_le.mpr hlt]
    constructor
    · intro hty
      unfold validate_access_token
      rw [hd]
      simp [hty]
    · intro hty
      unfold validate_refresh_token
      rw [hd]
      simp [hty]
  · intro hkey
    have hd : jwtDecode tok secret now =
        .error (.invalidToken "Signature verification failed") := by
      unfold jwtDecode
      rw [if_pos (by simpa using hkey)]
    constructor
    · unfold validate_access_token
      rw [hd]
      rfl
    · unfold validate_refresh_token
      rw [hd]
      rfl

/-- Witness for C4's theorem: a token whose expiry equals the validation
instant is already rejected as expired by both validators. -/
theorem validate_token_expiry_boundary_witness :
    validate_access_token "k"
        (jwtEncode [("exp", CVal.n 100), ("type", CVal.s "access")] "k") 100 =
      .error (.tokenError "Token has expired") ∧
    validate_refresh_token "k"
        (jwtEncode [("exp", CVal.n 100), ("type", CVal.s "access")] "k") 100 =
      .error (.tokenError "Refresh token has expired") :=
  (validate_token_expiry_boundary "k"
      (jwtEncode [("exp", CVal.n 100), ("type", CVal.s "access")] "k")
      100 100 rfl).1 rfl (Nat.le_refl 100)

/-- C7: a refresh token that decodes under the service secret with type
"refresh" and carries the id of a stored user drives
`refresh_access_token` to mint exactly the access token `create_tokens`
would produce for that user at the same instant — same payload fields, same
1-hour lifetime — with `token_type = "Bearer"` and `expires_in = 3600`, and
the response type carries no refresh token. The store is only read, and the
presented refresh token still validates afterwards: no rotation, no
invalidation. Without a stored user the call fails with
`AuthenticationError("User not found")`; with an inactive one, with
`AuthenticationError("User account is deactivated")`. -/
theorem refresh_access_token_equiv_create_tokens (sha256hex : String → String)
    (iso : Nat → String) (secret : String) (store : List User) (tok : Token)
    (now : Nat) (uid : String)
    (hdec : jwtDecode tok secret now = .ok tok.payload)
    (hty : getClaim tok.payload "type" = some (.s "refresh"))
    (huid : getClaim tok.payload "user_id" = some (.s uid)) :
    (∀ u, store.find? (fun v => v.id = uid) = some u → u.is_active = true →
      refresh_access_token secret store tok now =
        .ok { access_token := (create_tokens sha256hex iso secret u now).access_token,
              token_type := "Bearer", expires_in := 3600 }) ∧
    (store.find? (fun v => v.id = uid) = none →
      refresh_access_token secret store tok now =
        .error (.authenticationError "User not found")) ∧
    (∀ u, store.find? (fun v => v.id = uid) = some u → u.is_active = false →
      refresh_access_token secret store tok now =
        .error (.authenticationError "User account is deactivated")) ∧
    validate_refresh_token secret tok now = .ok tok.payload := by
  have hval : validate_refresh_token secret tok now = .ok tok.payload := by
    unfold validate_refresh_token
    rw [hdec]
    simp [hty]
  refine ⟨?_, ?_, ?_, hval⟩
  · intro u hfind hact
    unfold refresh_access_token
    rw [hval]
    dsimp only
    rw [huid]
    dsimp only
    rw [hfind]
    dsimp only
    rw [hact]
    rfl
  · intro hfind
    unfold refresh_access_token
    rw [hval]
    dsimp only
    rw [huid]
    dsimp only
    rw [hfind]
  · intro u hfind hact
    unfold refresh_access_token
    rw [hval]
    dsimp only
    rw [huid]
    dsimp only
    rw [hfind]
    dsimp only
    rw [hact]
    rfl

/-- Witness for C7's theorem: refreshing with the refresh token just minted
for the sample user returns exactly the access token `create_tokens` mints
at the same instant. -/
theorem refresh_access_token_equiv_witness :
    refresh_access_token "k" [sampleUser]
        (create_tokens (fun _ => "deadbeef") (fun _ => "t0") "k" sampleUser 50).refresh_token 50 =
      .ok { access_token :=
              (create_tokens (fun _ => "deadbeef") (fun _ => "t0") "k" sampleUser 50).access_token,
            token_type := "Bearer", expires_in := 3600 } :=
  (refresh_access_token_equiv_create_tokens (fun _ => "deadbeef") (fun _ => "t0")
      "k" [sampleUser]
      (create_tokens (fun _ => "deadbeef") (fun _ => "t0") "k" sampleUser 50).refresh_token
      50 sampleUser.id rfl rfl rfl).1 sampleUser (by rfl) rfl

/-- C9: a successful `authenticate_user` returns a record that can differ
from the stored one only in `last_login_ip` and `updated_at` — every other
field is returned unchanged — and when no IP address is supplied the record
and the store are returned entirely unchanged. -/
theorem authenticate_user_frame (store : List User) (now : Nat)
    (email password : String) (ip : Option String) (u' : User)
    (st' : List User)
    (h : authenticate_user store now email password ip = .ok (u', st')) :
    ∃ u, djAuthenticate store (pyStrip (pyLower email)) password = some u ∧
      u'.id = u.id ∧ u'.email = u.email ∧ u'.username = u.username ∧
      u'.passwordHash = u.passwordHash ∧ u'.first_name = u.first_name ∧
      u'.last_name = u.last_name ∧ u'.avatar_url = u.avatar_url ∧
      u'.is_active = u.is_active ∧ u'.is_staff = u.is_staff ∧
      u'.is_superuser = u.is_superuser ∧
      u'.email_verified = u.email_verified ∧
      u'.created_at = u.created_at ∧
      (ip = none → u' = u ∧ st' = store) := by
  unfold authenticate_user at h
  by_cases h0 : (email = "" || password = "") = true
  · rw [if_pos h0] at h
    exact absurd h (by simp)
  · rw [if_neg h0] at h
    dsimp only at h
    cases hdj : djAuthenticate store (pyStrip (pyLower email)) password with
    | none =>
      rw [hdj] at h
      exact absurd h (by simp)
    | some u =>
      rw [hdj] at h
      dsimp only at h
      rw [djAuthenticate_is_active hdj, if_neg (by decide)] at h
      refine ⟨u, rfl, ?_⟩
      cases ip with
      | none =>
        cases h
        exact ⟨rfl, rfl, rfl, rfl, rfl, rfl, rfl, rfl, rfl, rfl, rfl, rfl,
          fun _ => ⟨rfl, rfl⟩⟩
      | some s =>
        dsimp only at h
        split at h
        · cases h
          exact ⟨rfl, rfl, rfl, rfl, rfl, rfl, rfl,
            (djAuthenticate_is_active hdj).symm, rfl, rfl, rfl, rfl,
            fun hc => absurd hc (by simp)⟩
        · cases h
          exact ⟨rfl, rfl, rfl, rfl, rfl, rfl, rfl, rfl, rfl, rfl, rfl, rfl,
            fun hc => absurd hc (by simp)⟩

/-- Witness for C9's theorem: logging the sample user in without an IP
address returns the record and the store untouched. -/
theorem authenticate_user_frame_witness :
    ∃ u, djAuthenticate [sampleUser] (pyStrip (pyLower "a@x.com")) "password123" = some u ∧
      sampleUser.id = u.id ∧ sampleUser.email = u.email ∧
      sampleUser.username = u.username ∧
      sampleUser.passwordHash = u.passwordHash ∧
      sampleUser.first_name = u.first_name ∧
      sampleUser.last_name = u.last_name ∧
      sampleUser.avatar_url = u.avatar_url ∧
      sampleUser.is_active = u.is_active ∧ sampleUser.is_staff = u.is_staff ∧
      sampleUser.is_superuser = u.is_superuser ∧
      sampleUser.email_verified = u.email_verified ∧
      sampleUser.created_at = u.created_at ∧
      (none = (none : Option String) → sampleUser = u ∧ [sampleUser] = [sampleUser]) :=
  authenticate_user_frame [sampleUser] 7 "a@x.com" "password123" none sampleUser
    [sampleUser] rfl

lemma create_user_with_profile_cases (store : List User) (now : Nat)
    (newId email password fn ln : String) :
    (∃ u st, create_user_with_profile store now newId email password fn ln =
        .ok (u, st) ∧ u.username = u.email ∧ u.email = normalize_email email) ∨
    (∃ m, create_user_with_profile store now newId email password fn ln =
      .error (.valueError m)) ∨
    (∃ m, create_user_with_profile store now newId email password fn ln =
      .error (.integrityError m)) := by
  unfold create_user_with_profile
  by_cases h0 : email = ""
  · rw [if_pos h0]
    exact Or.inr (Or.inl ⟨_, rfl⟩)
  · rw [if_neg h0]
    dsimp only
    split
    · exact Or.inr (Or.inr ⟨_, rfl⟩)
    · exact Or.inl ⟨_, _, rfl, rfl, rfl⟩

/-- C6: `register_user` fails with Django's `ValidationError` exactly when
the email is empty, the password is empty, a user with the lowercased and
stripped email already exists, or the password violates the configured
strength policy (`validate_password` is called without a user context, so
the similarity validator passes vacuously and the effective checks are the
8-character minimum, the common-password list and all-numeric); every other
failure is the broad persistence wrap
`AuthenticationError("Failed to create user: ...")`; and a successfully
created user has `username` equal to its stored (normalized) email. -/
theorem register_user_spec (commonPasswords : List String)
    (similar : String → User → Bool) (store : List User) (now : Nat)
    (newId email password first_name last_name : String) :
    ((∃ msgs, register_user commonPasswords similar store now newId email
        password first_name last_name = .error (.validationError msgs)) ↔
      (email = "" ∨ password = "" ∨
        store.any (fun v => v.email = pyStrip (pyLower email)) = true ∨
        validate_password_errors commonPasswords similar password none ≠ [])) ∧
    (∀ u st, register_user commonPasswords similar store now newId email
        password first_name last_name = .ok (u, st) →
      u.username = u.email ∧
      u.email = normalize_email (pyStrip (pyLower email))) ∧
    (∀ e, register_user commonPasswords similar store now newId email
        password first_name last_name = .error e →
      (∃ msgs, e = .validationError msgs) ∨
      (∃ m, e = .authenticationError ("Failed to create user: " ++ m))) := by
  refine ⟨?_, ?_, ?_⟩
  · unfold register_user
    by_cases h0 : (email = "" || password = "") = true
    · rw [if_pos h0]
      simp only [Bool.or_eq_true, decide_eq_true_eq] at h0
      constructor
      · intro _
        rcases h0 with h | h
        · exact Or.inl h
        · exact Or.inr (Or.inl h)
      · intro _
        exact ⟨_, rfl⟩
    · rw [if_neg h0]
      dsimp only
      simp only [Bool.or_eq_true, decide_eq_true_eq, not_or] at h0
      by_cases hdup : store.any (fun v => v.email = pyStrip (pyLower email)) = true
      · rw [if_pos hdup]
        constructor
        · intro _
          exact Or.inr (Or.inr (Or.inl hdup))
        · intro _
          exact ⟨_, rfl⟩
      · rw [if_neg hdup]
        cases herrs : validate_password_errors commonPasswords similar password none with
        | nil =>
          dsimp only
          constructor
          · rintro ⟨msgs, hmsg⟩
            rcases create_user_with_profile_cases store now newId
                (pyStrip (pyLower email)) password first_name last_name with
              ⟨u, st, hok, _, _⟩ | ⟨m, herr⟩ | ⟨m, herr⟩
            · rw [hok] at hmsg
              exact absurd hmsg (by simp)
            · rw [herr] at hmsg
              exact absurd hmsg (by simp)
            · rw [herr] at hmsg
              exact absurd hmsg (by simp)
          · intro hc
            rcases hc with h | h | h | h
            · exact absurd h h0.1
            · exact absurd h h0.2
            · exact absurd h hdup
            · exact absurd rfl h
        | cons m ms =>
          dsimp only
          constructor
          · intro _
            exact Or.inr (Or.inr (Or.inr (by simp)))
          · intro _
            exact ⟨_, rfl⟩
  · intro u st h
    unfold register_user at h
    by_cases h0 : (email = "" || password = "") = true
    · rw [if_pos h0] at h
      exact absurd h (by simp)
    · rw [if_neg h0] at h
      dsimp only at h
      by_cases hdup : store.any (fun v => v.email = pyStrip (pyLower email)) = true
      · rw [if_pos hdup] at h
        exact absurd h (by simp)
      · rw [if_neg hdup] at h
        cases herrs : validate_password_errors commonPasswords similar password none with
        | nil =>
          rw [herrs] at h
          dsimp only at h
          rcases create_user_with_profile_cases store now newId
              (pyStrip (pyLower email)) password first_name last_name with
            ⟨u2, st2, hok, hu, he⟩ | ⟨m, herr⟩ | ⟨m, herr⟩
          · rw [hok] at h
            simp only [Except.ok.injEq, Prod.mk.injEq] at h
            obtain ⟨hu2, -⟩ := h
            subst hu2
            exact ⟨hu, he⟩
          · rw [herr] at h
            exact absurd h (by simp)
          · rw [herr] at h
            exact absurd h (by simp)
        | cons m ms =>
          rw [herrs] at h
          exact absurd h (by simp)
  · intro e h
    unfold register_user at h
    by_cases h0 : (email = "" || password = "") = true
    · rw [if_pos h0] at h
      cases h
      exact Or.inl ⟨_, rfl⟩
    · rw [if_neg h0] at h
      dsimp only at h
      by_cases hdup : store.any (fun v => v.email = pyStrip (pyLower email)) = true
      · rw [if_pos hdup] at h
        cases h
        exact Or.inl ⟨_, rfl⟩
      · rw [if_neg hdup] at h
        cases herrs : validate_password_errors commonPasswords similar password none with
        | nil =>
          rw [herrs] at h
          dsimp only at h
          rcases create_user_with_profile_cases store now newId
              (pyStrip (pyLower email)) password first_name last_name with
            ⟨u2, st2, hok, -, -⟩ | ⟨m, herr⟩ | ⟨m, herr⟩
          · rw [hok] at h
            exact absurd h (by simp)
          · rw [herr] at h
            simp only [Except.error.injEq] at h
            exact Or.inr ⟨m, h.symm⟩
          · rw [herr] at h
            simp only [Except.error.injEq] at h
            exact Or.inr ⟨m, h.symm⟩
        | cons m ms =>
          rw [herrs] at h
          cases h
          exact Or.inl ⟨_, rfl⟩

/-- Witness for C6's theorem: its failure characterization applied to a
concrete empty-email registration, and its success clause applied to a
concrete successful registration of the sample address. -/
theorem register_user_spec_witness :
    (∃ msgs, register_user [] (fun _ _ => false) [] 3 "id-1" "" "password123"
        "Ada" "L" = Except.error (AuthErr.validationError msgs)) ∧
    (registeredSample.username = registeredSample.email ∧
     registeredSample.email = normalize_email (pyStrip (pyLower " A@X.com "))) :=
  ⟨((register_user_spec [] (fun _ _ => false) [] 3 "id-1" "" "password123"
      "Ada" "L").1).mpr (Or.inl rfl),
   (register_user_spec [] (fun _ _ => false) [] 3 "id-1" " A@X.com "
      "password123" "Ada" "L").2.1 registeredSample [registeredSample] (by rfl)⟩

/-- C8: across every mutating operation on a stored user — email
verification, profile update, password change, login-IP update — the
`email_verified` flag never transitions from true back to false; and the
verify-email endpoint called on an already verified user answers
`400 already_verified` and returns the record unchanged, the flag still
true. -/
theorem email_verified_monotone (commonPasswords : List String)
    (similar : String → User → Bool) (now : Nat) (op : UserOp) (u : User) :
    ((applyUserOp commonPasswords similar now op u).user.email_verified = false →
      u.email_verified = false) ∧
    (u.email_verified = true →
      applyUserOp commonPasswords similar now .verifyEmail u =
        { status := 400, errorCode := some "already_verified", user := u }) := by
  constructor
  · intro h
    cases op with
    | verifyEmail =>
      by_cases hv : u.email_verified = true
      · simp only [applyUserOp, verify_email_endpoint, if_pos hv] at h
        exact h
      · simpa using hv
    | updateProfile fn ln av =>
      simp only [applyUserOp, update_profile_endpoint] at h
      exact h
    | changePassword cur newPw =>
      simp only [applyUserOp, change_password_endpoint] at h
      split at h
      · exact h
      · split at h
        · exact h
        · exact h
    | updateLastLoginIp ip =>
      simp only [applyUserOp] at h
      exact h
  · intro hv
    simp only [applyUserOp, verify_email_endpoint, if_pos hv]

/-- Witness for C8's theorem: a second verify-email call on the already
verified sample user is refused and leaves the record unchanged. -/
theorem email_verified_monotone_witness :
    applyUserOp [] (fun _ _ => false) 9 UserOp.verifyEmail verifiedUser =
      { status := 400, errorCode := some "already_verified", user := verifiedUser } :=
  (email_verified_monotone [] (fun _ _ => false) 9 UserOp.verifyEmail verifiedUser).2 rfl

/-- C10 is false as stated: with the UTC clock advancing between the four
class-definition-time evaluations of `datetime.now(UTC)` (sample `i` at
evaluation step `i`), a `UserRegistered` and a `UserEmailVerified` event
constructed without `occurred_at` carry different timestamps — the default
is captured per class, not once for the module. -/
theorem event_defaults_not_shared_across_classes :
    ¬ ((mkUserRegistered (loadUserEvents (fun i => i)) "a1" "r@x.com" "R" none).occurred_at =
       (mkUserEmailVerified (loadUserEvents (fun i => i)) "a1" "r@x.com" none).occurred_at) := by
  decide

/-- C10 (amended): each event dataclass freezes its own `occurred_at`
default when `user_events.py` is loaded — `datetime.now(UTC)` is evaluated
once per class at definition time, with the module-body clock samples taken
in textual order. Hence any two events of the same class constructed
without an explicit `occurred_at` carry that class's load-time timestamp
(construction time never enters), while distinct classes capture distinct
successive samples. -/
theorem event_default_frozen_per_class (clock : Nat → Nat)
    (a1 e1 f1 a2 e2 f2 : String) (ip1 ip2 : Option String) :
    ((mkUserRegistered (loadUserEvents clock) a1 e1 f1 none).occurred_at = clock 0 ∧
     (mkUserRegistered (loadUserEvents clock) a2 e2 f2 none).occurred_at = clock 0) ∧
    ((mkUserEmailVerified (loadUserEvents clock) a1 e1 none).occurred_at = clock 1 ∧
     (mkUserEmailVerified (loadUserEvents clock) a2 e2 none).occurred_at = clock 1) ∧
    ((mkUserLoggedIn (loadUserEvents clock) a1 e1 ip1 none).occurred_at = clock 2 ∧
     (mkUserLoggedIn (loadUserEvents clock) a2 e2 ip2 none).occurred_at = clock 2) ∧
    ((mkUserPasswordChanged (loadUserEvents clock) a1 e1 none).occurred_at = clock 3 ∧
     (mkUserPasswordChanged (loadUserEvents clock) a2 e2 none).occurred_at = clock 3) :=
  ⟨⟨rfl, rfl⟩, ⟨rfl, rfl⟩, ⟨rfl, rfl⟩, ⟨rfl, rfl⟩⟩

end ConfigCodex
